import Mathlib

/-!
Shallow embedding of the Splunk MCP server (src/src/index.ts).

The server is a thin adapter: five tools (search, configure,
list_saved_searches, list_indexes, run_saved_search) and two resources
(connection_status, server_info) over a single mutable session reference
`splunkService : SplunkService | null`. Each operation is modelled as a
pure function from the session state, an environment oracle describing
the external Splunk system (the vendor SDK callbacks), and the tool
arguments, to a triple of (new session state, response, trace of
external calls issued). The trace makes "performs no external call"
statements precise.
-/

set_option autoImplicit false

namespace SplunkMCP

/-- Connection parameters as in the `SplunkConfig` interface of index.ts. -/
structure SplunkConfig where
  host : String
  port : Int
  username : String
  password : String
  scheme : String
  deriving DecidableEq, Repr

/-- The mutable `splunkService` reference: `none` is the unset (null)
session; `some cfg` is an authenticated service handle created from
`cfg` (the handle itself is opaque, identified by its configuration). -/
abbrev SessionState := Option SplunkConfig

/-- The `searchParams` object built by the search tool handler
(index.ts lines 49-60). Optional fields are set only when the
corresponding argument is JS-truthy. -/
structure SearchParams where
  search : String
  output_mode : String
  count : Int
  earliest_time : Option String := none
  latest_time : Option String := none
  deriving DecidableEq, Repr

/-- The `dispatchOptions` object built by runSavedSearch
(index.ts lines 376-378). -/
structure DispatchOptions where
  earliest_time : Option String := none
  latest_time : Option String := none
  deriving DecidableEq, Repr

/-- One saved-search entry as delivered by the SDK collection: a name
plus the properties the projection reads. Fields are `Option` because a
JS property may be undefined. -/
structure SavedSearchEntry where
  name : String
  search : Option String
  description : Option String
  dispatch_earliest_time : Option String
  dispatch_latest_time : Option String
  deriving DecidableEq, Repr

/-- Projected record returned by getSavedSearches
(index.ts lines 321-327). -/
structure SavedSearchRecord where
  name : String
  search : Option String
  description : Option String
  earliest_time : Option String
  latest_time : Option String
  deriving DecidableEq, Repr

/-- One index entry as delivered by the SDK collection. -/
structure IndexEntry where
  name : String
  totalEventCount : Option String
  currentDBSizeMB : Option String
  maxDataSize : Option String
  deriving DecidableEq, Repr

/-- Projected record returned by getIndexes (index.ts lines 345-350). -/
structure IndexRecord where
  name : String
  totalEventCount : Option String
  currentDBSizeMB : Option String
  maxDataSize : Option String
  deriving DecidableEq, Repr

/-- Server info properties read by getServerInfo (index.ts lines 414-421). -/
structure ServerInfoProps where
  version : Option String
  build : Option String
  serverName : Option String
  licenseState : Option String
  mode : Option String
  deriving DecidableEq, Repr

/-- An external call issued to the Splunk system through the SDK. -/
inductive ExtCall where
  | login (cfg : SplunkConfig)
  | searchSubmit (params : SearchParams)
  | jobTrack
  | jobResults (output_mode : String)
  | fetchSavedSearches
  | fetchIndexes
  | dispatchSaved (name : String) (opts : DispatchOptions)
  | serverInfoCall
  deriving DecidableEq, Repr

/-- Environment oracle: the outcome each SDK callback would deliver.
`Except String` models the `(err, value)` callback convention; an inner
`Option` models a value that may be JS-undefined. -/
structure Env where
  loginErr : SplunkConfig → Option String
  searchResult : SearchParams → Except String Nat
  trackErr : Nat → Option String
  resultsOut : Nat → String → Except String String
  savedSearchesFetch : Except String (Option (List SavedSearchEntry))
  indexesFetch : Except String (Option (List IndexEntry))
  dispatchResult : String → DispatchOptions → Except String Nat
  serverInfoResult : Except String (Option ServerInfoProps)

/-- Tool response envelope: `content[0].text` (none models a JS
undefined text value, as produced by JSON.stringify(undefined)) and the
`isError` flag (absent in JS is modelled as false). -/
structure ToolResponse where
  text : Option String
  isError : Bool
  deriving DecidableEq, Repr

/-- Resource response envelope: `contents[0]`. Resource responses in the
source never carry an `isError` property, so the field is false on every
code path (an absent JS property is falsy). -/
structure ResourceResponse where
  uri : String
  text : String
  isError : Bool
  deriving DecidableEq, Repr

/-- Result of one operation: the session state after it, the response,
and the external calls it issued, in order. -/
structure StepResult where
  state : SessionState
  resp : ToolResponse
  calls : List ExtCall
  deriving Repr

/-- Success response. -/
def okResp (t : Option String) : ToolResponse := ⟨t, false⟩

/-- Error response with `isError: true`. -/
def errResp (t : String) : ToolResponse := ⟨some t, true⟩

/-- A tool response that carries a textual error message together with
the error indicator set. -/
def isFlaggedError (r : ToolResponse) (msg : String) : Prop :=
  r.isError = true ∧ r.text = some msg

/-- The message thrown by tool handlers when `splunkService` is null. -/
def sessionErrorMsg : String :=
  "Splunk service not initialized. Please configure connection first."

/-- JS truthiness filter used for `if (x) params.x = x`: an empty string
is falsy, so it is not copied into the params object. -/
def jsTruthyStr : Option String → Option String
  | none => none
  | some s => if s = "" then none else some s

/-! ## Schema validation (zod, applied by the MCP framework before the
handler runs) -/

/-- Raw arguments of the search tool before zod validation. `none`
models an omitted optional/defaulted argument. -/
structure SearchArgsRaw where
  query : String
  earliest_time : Option String := none
  latest_time : Option String := none
  max_count : Option Int := none
  output_mode : Option String := none
  deriving DecidableEq, Repr

/-- Validated search arguments, defaults applied. -/
structure SearchArgs where
  query : String
  earliest_time : Option String
  latest_time : Option String
  max_count : Int
  output_mode : String
  deriving DecidableEq, Repr

/-- Membership in the output_mode enum of the search tool schema. -/
def validOutputMode (s : String) : Bool :=
  s = "json" || s = "csv" || s = "xml"

/-- Zod validation of the search tool schema (index.ts lines 37-41):
max_count is a number in [1, 10000] defaulting to 100; output_mode is
one of json/csv/xml defaulting to json. -/
def validateSearchArgs (raw : SearchArgsRaw) : Except String SearchArgs :=
  match raw.max_count with
  | some n =>
    if n < 1 then .error "max_count: Number must be greater than or equal to 1"
    else if 10000 < n then .error "max_count: Number must be less than or equal to 10000"
    else
      match raw.output_mode with
      | some m =>
        if validOutputMode m then
          .ok ⟨raw.query, raw.earliest_time, raw.latest_time, n, m⟩
        else .error "output_mode: Invalid enum value"
      | none => .ok ⟨raw.query, raw.earliest_time, raw.latest_time, n, "json"⟩
  | none =>
    match raw.output_mode with
    | some m =>
      if validOutputMode m then
        .ok ⟨raw.query, raw.earliest_time, raw.latest_time, 100, m⟩
      else .error "output_mode: Invalid enum value"
    | none => .ok ⟨raw.query, raw.earliest_time, raw.latest_time, 100, "json"⟩

/-- Raw arguments of the configure tool before zod validation. -/
structure ConfigureArgsRaw where
  host : String
  port : Option Int := none
  username : String
  password : String
  scheme : Option String := none
  deriving DecidableEq, Repr

/-- Membership in the scheme enum of the configure tool schema. -/
def validScheme (s : String) : Bool :=
  s = "http" || s = "https"

/-- Zod validation of the configure tool schema (index.ts lines 87-91):
port defaults to 8089, scheme is http/https defaulting to https. -/
def validateConfigureArgs (raw : ConfigureArgsRaw) : Except String SplunkConfig :=
  match raw.scheme with
  | some s =>
    if validScheme s then
      .ok ⟨raw.host, raw.port.getD 8089, raw.username, raw.password, s⟩
    else .error "scheme: Invalid enum value"
  | none => .ok ⟨raw.host, raw.port.getD 8089, raw.username, raw.password, "https"⟩

/-! ## Client-component helpers (the private async methods of SplunkMCPServer) -/

/-- Builds the `searchParams` object of the search tool handler
(index.ts lines 49-60): prefix the query with "search " unless it
already starts with "search", and copy the truthy time bounds. -/
def buildSearchParams (a : SearchArgs) : SearchParams :=
  { search := if a.query.startsWith "search" then a.query else "search " ++ a.query
    output_mode := a.output_mode
    count := a.max_count
    earliest_time := jsTruthyStr a.earliest_time
    latest_time := jsTruthyStr a.latest_time }

/-- Projection applied by getSavedSearches (index.ts lines 321-327). -/
def projectSavedSearch (s : SavedSearchEntry) : SavedSearchRecord :=
  ⟨s.name, s.search, s.description, s.dispatch_earliest_time, s.dispatch_latest_time⟩

/-- Projection applied by getIndexes (index.ts lines 345-350). -/
def projectIndex (i : IndexEntry) : IndexRecord :=
  ⟨i.name, i.totalEventCount, i.currentDBSizeMB, i.maxDataSize⟩

/-- getSavedSearches (index.ts lines 310-332): fetch the collection and
map the projection over it; an undefined collection resolves undefined
(optional chaining short-circuits the whole map). -/
def getSavedSearches (env : Env) : Except String (Option (List SavedSearchRecord)) :=
  match env.savedSearchesFetch with
  | .error e => .error e
  | .ok none => .ok none
  | .ok (some l) => .ok (some (l.map projectSavedSearch))

/-- getIndexes (index.ts lines 334-355), analogous to getSavedSearches. -/
def getIndexes (env : Env) : Except String (Option (List IndexRecord)) :=
  match env.indexesFetch with
  | .error e => .error e
  | .ok none => .ok none
  | .ok (some l) => .ok (some (l.map projectIndex))

/-- Stand-in for JSON.stringify on a saved-search record list; the exact
text matters to no claim, only that it is a string. -/
def serializeSavedSearches (l : List SavedSearchRecord) : String :=
  String.intercalate "," (l.map (fun r =>
    "name=" ++ r.name ++ ";search=" ++ r.search.getD "" ++
    ";description=" ++ r.description.getD "" ++
    ";earliest_time=" ++ r.earliest_time.getD "" ++
    ";latest_time=" ++ r.latest_time.getD ""))

/-- Stand-in for JSON.stringify on an index record list. -/
def serializeIndexes (l : List IndexRecord) : String :=
  String.intercalate "," (l.map (fun r =>
    "name=" ++ r.name ++ ";totalEventCount=" ++ r.totalEventCount.getD "" ++
    ";currentDBSizeMB=" ++ r.currentDBSizeMB.getD "" ++
    ";maxDataSize=" ++ r.maxDataSize.getD ""))

/-- Stand-in for JSON.stringify on the projected server info. -/
def serializeServerInfo (p : ServerInfoProps) : String :=
  "version=" ++ p.version.getD "" ++ ";build=" ++ p.build.getD "" ++
  ";serverName=" ++ p.serverName.getD "" ++
  ";licenseState=" ++ p.licenseState.getD "" ++ ";mode=" ++ p.mode.getD ""

/-! ## Tool handlers -/

/-- The search tool (index.ts lines 34-81): zod validation, null-session
check, runSearch (submit), getSearchResults (track then fetch results in
the requested output mode); any rejection is caught and turned into an
error response. -/
def searchTool (st : SessionState) (env : Env) (raw : SearchArgsRaw) : StepResult :=
  match validateSearchArgs raw with
  | .error e => ⟨st, errResp ("Invalid arguments for tool search: " ++ e), []⟩
  | .ok a =>
    match st with
    | none => ⟨st, errResp ("Error executing search: " ++ sessionErrorMsg), []⟩
    | some _ =>
      let p := buildSearchParams a
      match env.searchResult p with
      | .error e => ⟨st, errResp ("Error executing search: " ++ e), [.searchSubmit p]⟩
      | .ok job =>
        match env.trackErr job with
        | some e =>
          ⟨st, errResp ("Error executing search: " ++ e), [.searchSubmit p, .jobTrack]⟩
        | none =>
          match env.resultsOut job a.output_mode with
          | .error e =>
            ⟨st, errResp ("Error executing search: " ++ e),
              [.searchSubmit p, .jobTrack, .jobResults a.output_mode]⟩
          | .ok r =>
            ⟨st, okResp (some r),
              [.searchSubmit p, .jobTrack, .jobResults a.output_mode]⟩

/-- The configure tool (index.ts lines 84-114, 253-273): build a new
service from the config (replacing whatever was there) and log in; on
login failure the reference is cleared back to null and the error is
reported; on success the reference holds the new handle. -/
def configureTool (st : SessionState) (env : Env) (raw : ConfigureArgsRaw) : StepResult :=
  match validateConfigureArgs raw with
  | .error e => ⟨st, errResp ("Invalid arguments for tool configure: " ++ e), []⟩
  | .ok cfg =>
    match env.loginErr cfg with
    | some e => ⟨none, errResp ("Failed to connect to Splunk: " ++ e), [.login cfg]⟩
    | none =>
      ⟨some cfg,
        okResp (some ("Successfully connected to Splunk at " ++ cfg.scheme ++ "://" ++
          cfg.host ++ ":" ++ toString cfg.port)),
        [.login cfg]⟩

/-- The list_saved_searches tool (index.ts lines 117-144). -/
def listSavedSearchesTool (st : SessionState) (env : Env) : StepResult :=
  match st with
  | none => ⟨st, errResp ("Error listing saved searches: " ++ sessionErrorMsg), []⟩
  | some _ =>
    match getSavedSearches env with
    | .error e => ⟨st, errResp ("Error listing saved searches: " ++ e), [.fetchSavedSearches]⟩
    | .ok none => ⟨st, okResp none, [.fetchSavedSearches]⟩
    | .ok (some l) => ⟨st, okResp (some (serializeSavedSearches l)), [.fetchSavedSearches]⟩

/-- The list_indexes tool (index.ts lines 147-174). -/
def listIndexesTool (st : SessionState) (env : Env) : StepResult :=
  match st with
  | none => ⟨st, errResp ("Error listing indexes: " ++ sessionErrorMsg), []⟩
  | some _ =>
    match getIndexes env with
    | .error e => ⟨st, errResp ("Error listing indexes: " ++ e), [.fetchIndexes]⟩
    | .ok none => ⟨st, okResp none, [.fetchIndexes]⟩
    | .ok (some l) => ⟨st, okResp (some (serializeIndexes l)), [.fetchIndexes]⟩

/-- Arguments of the run_saved_search tool (all plain/optional strings,
so zod validation cannot fail on them). -/
structure RunSavedSearchArgs where
  name : String
  earliest_time : Option String := none
  latest_time : Option String := none
  deriving DecidableEq, Repr

/-- The run_saved_search tool (index.ts lines 177-208, 357-401): fetch
the saved-search collection, look the name up with item(), reject with a
not-found error before any dispatch when absent, otherwise dispatch with
the truthy time overrides, track, and fetch JSON results. -/
def runSavedSearchTool (st : SessionState) (env : Env) (a : RunSavedSearchArgs) : StepResult :=
  match st with
  | none => ⟨st, errResp ("Error running saved search: " ++ sessionErrorMsg), []⟩
  | some _ =>
    match env.savedSearchesFetch with
    | .error e => ⟨st, errResp ("Error running saved search: " ++ e), [.fetchSavedSearches]⟩
    | .ok coll =>
      match coll.bind (fun l => l.find? (fun s => s.name == a.name)) with
      | none =>
        ⟨st, errResp ("Error running saved search: Saved search \x27" ++ a.name ++
          "\x27 not found"), [.fetchSavedSearches]⟩
      | some _ =>
        let opts : DispatchOptions :=
          ⟨jsTruthyStr a.earliest_time, jsTruthyStr a.latest_time⟩
        match env.dispatchResult a.name opts with
        | .error e =>
          ⟨st, errResp ("Error running saved search: " ++ e),
            [.fetchSavedSearches, .dispatchSaved a.name opts]⟩
        | .ok job =>
          match env.trackErr job with
          | some e =>
            ⟨st, errResp ("Error running saved search: " ++ e),
              [.fetchSavedSearches, .dispatchSaved a.name opts, .jobTrack]⟩
          | none =>
            match env.resultsOut job "json" with
            | .error e =>
              ⟨st, errResp ("Error running saved search: " ++ e),
                [.fetchSavedSearches, .dispatchSaved a.name opts, .jobTrack,
                  .jobResults "json"]⟩
            | .ok r =>
              ⟨st, okResp (some r),
                [.fetchSavedSearches, .dispatchSaved a.name opts, .jobTrack,
                  .jobResults "json"]⟩

/-! ## Resources -/

/-- The connection_status resource (index.ts lines 213-222): pure read
of the session reference, no external call, no failure path. -/
def connectionStatusResource (st : SessionState) : ResourceResponse × List ExtCall :=
  (⟨"splunk://status", if st.isSome then "Connected" else "Not connected", false⟩, [])

/-- The server_info resource (index.ts lines 225-250, 403-425): requires
a session, performs one serverInfo call, projects the properties; the
error branch returns a textual error message but, unlike the tools,
never sets an isError property. -/
def serverInfoResource (st : SessionState) (env : Env) : ResourceResponse × List ExtCall :=
  match st with
  | none => (⟨"splunk://info", "Error getting server info: Splunk service not initialized",
      false⟩, [])
  | some _ =>
    match env.serverInfoResult with
    | .error e => (⟨"splunk://info", "Error getting server info: " ++ e, false⟩,
        [.serverInfoCall])
    | .ok info =>
      let props : ServerInfoProps :=
        match info with
        | none => ⟨none, none, none, none, none⟩
        | some p => p
      (⟨"splunk://info", serializeServerInfo props, false⟩, [.serverInfoCall])

/-! ## Concrete fixtures (used by witness theorems) -/

/-- A concrete connection configuration. -/
def cfgA : SplunkConfig := ⟨"localhost", 8089, "admin", "changeme", "https"⟩

/-- A concrete saved-search entry. -/
def ssAlpha : SavedSearchEntry :=
  ⟨"alpha", some "index=_internal | head 5", some "first", some "-1h", some "now"⟩

/-- A second concrete saved-search entry. -/
def ssBeta : SavedSearchEntry := ⟨"beta", some "index=main error", none, none, none⟩

/-- A concrete index entry. -/
def ixMain : IndexEntry := ⟨"main", some "12345", some "42", some "auto"⟩

/-- An environment where every external call succeeds. -/
def envOk : Env where
  loginErr := fun _ => none
  searchResult := fun _ => .ok 1
  trackErr := fun _ => none
  resultsOut := fun _ m => .ok ("results-" ++ m)
  savedSearchesFetch := .ok (some [ssAlpha, ssBeta])
  indexesFetch := .ok (some [ixMain])
  dispatchResult := fun _ _ => .ok 2
  serverInfoResult := .ok (some ⟨some "9.2.1", some "b100", some "splunk-host",
    some "OK", some "normal"⟩)

/-- Environment where authentication fails. -/
def envAuthFail : Env := { envOk with loginErr := fun _ => some "Login failed" }

/-- Environment where both collection fetches deliver no object
(undefined value, no error). -/
def envUndefColl : Env :=
  { envOk with savedSearchesFetch := .ok none, indexesFetch := .ok none }

/-- Environment where the serverInfo call fails. -/
def envInfoFail : Env := { envOk with serverInfoResult := .error "connection reset" }

/-- Environment where search submission fails. -/
def envSearchFail : Env := { envOk with searchResult := fun _ => .error "sid not found" }

/-- Environment where both authentication and search submission fail. -/
def envBothFail : Env :=
  { envOk with loginErr := fun _ => some "Login failed",
               searchResult := fun _ => .error "sid not found" }

/-! ## Helper lemmas about validation -/

theorem validateSearchArgs_query (raw : SearchArgsRaw) (a : SearchArgs)
    (hv : validateSearchArgs raw = .ok a) : a.query = raw.query := by
  unfold validateSearchArgs at hv
  repeat' split at hv
  all_goals (try cases hv)
  all_goals simp_all

theorem validateSearchArgs_output_mode_none (raw : SearchArgsRaw) (a : SearchArgs)
    (hv : validateSearchArgs raw = .ok a) (hm : raw.output_mode = none) :
    a.output_mode = "json" := by
  unfold validateSearchArgs at hv
  rw [hm] at hv
  repeat' split at hv
  all_goals (try cases hv)
  all_goals simp_all

theorem validateSearchArgs_output_mode_some (raw : SearchArgsRaw) (a : SearchArgs)
    (m : String) (hv : validateSearchArgs raw = .ok a) (hm : raw.output_mode = some m) :
    a.output_mode = m := by
  unfold validateSearchArgs at hv
  rw [hm] at hv
  repeat' split at hv
  all_goals (try cases hv)
  all_goals simp_all

/-! ## Claim theorems -/

/-- C1: every data-access operation (search with schema-valid arguments,
list_saved_searches, list_indexes, run_saved_search) invoked while the
session reference is null returns the session-state error response and
issues no external call. -/
theorem unset_session_data_ops_fail_without_calls (env : Env) (raws : SearchArgsRaw)
    (a : SearchArgs) (rss : RunSavedSearchArgs)
    (hv : validateSearchArgs raws = .ok a) :
    (searchTool none env raws).resp = errResp ("Error executing search: " ++ sessionErrorMsg) ∧
    (searchTool none env raws).calls = [] ∧
    (listSavedSearchesTool none env).resp =
      errResp ("Error listing saved searches: " ++ sessionErrorMsg) ∧
    (listSavedSearchesTool none env).calls = [] ∧
    (listIndexesTool none env).resp =
      errResp ("Error listing indexes: " ++ sessionErrorMsg) ∧
    (listIndexesTool none env).calls = [] ∧
    (runSavedSearchTool none env rss).resp =
      errResp ("Error running saved search: " ++ sessionErrorMsg) ∧
    (runSavedSearchTool none env rss).calls = [] := by
  refine ⟨?_, ?_, rfl, rfl, rfl, rfl, rfl, rfl⟩ <;> simp [searchTool, hv]

/-- Witness for C1 at a concrete environment and arguments. -/
theorem unset_session_data_ops_fail_without_calls_witness :
    (searchTool none envOk { query := "error" }).calls = [] ∧
    (listSavedSearchesTool none envOk).calls = [] :=
  ⟨(unset_session_data_ops_fail_without_calls envOk { query := "error" }
      ⟨"error", none, none, 100, "json"⟩ { name := "alpha" } rfl).2.1,
   (unset_session_data_ops_fail_without_calls envOk { query := "error" }
      ⟨"error", none, none, 100, "json"⟩ { name := "alpha" } rfl).2.2.2.1⟩

/-- C3: a search invocation whose max_count lies outside [1, 10000] is
rejected by schema validation: the response is an error, no external
call is issued, and the session state is untouched. -/
theorem search_max_count_out_of_range_rejected (st : SessionState) (env : Env)
    (raw : SearchArgsRaw) (n : Int) (hm : raw.max_count = some n)
    (hout : n < 1 ∨ 10000 < n) :
    (searchTool st env raw).resp.isError = true ∧
    (searchTool st env raw).calls = [] ∧
    (searchTool st env raw).state = st := by
  rcases hout with h | h
  · simp [searchTool, validateSearchArgs, hm, h, errResp]
  · have h1 : ¬ n < 1 := by omega
    simp [searchTool, validateSearchArgs, hm, h1, h, errResp]

/-- Witness for C3 with max_count 0. -/
theorem search_max_count_out_of_range_rejected_witness :
    (searchTool (some cfgA) envOk { query := "x", max_count := some 0 }).calls = [] :=
  (search_max_count_out_of_range_rejected (some cfgA) envOk
    { query := "x", max_count := some 0 } 0 rfl (Or.inl (by decide))).2.1

/-- C10: when the external fetch delivers no collection object (absent
result, no error), the two list tools resolve with an undefined value
and return a success response: no error flag, JS-undefined text. -/
theorem list_tools_undefined_collection_success (cfg : SplunkConfig) (env : Env)
    (hs : env.savedSearchesFetch = .ok none) (hi : env.indexesFetch = .ok none) :
    getSavedSearches env = .ok none ∧
    getIndexes env = .ok none ∧
    (listSavedSearchesTool (some cfg) env).resp = okResp none ∧
    (listSavedSearchesTool (some cfg) env).resp.isError = false ∧
    (listIndexesTool (some cfg) env).resp = okResp none ∧
    (listIndexesTool (some cfg) env).resp.isError = false := by
  simp [getSavedSearches, getIndexes, listSavedSearchesTool, listIndexesTool, hs, hi, okResp]

/-- Witness for C10 at the environment whose fetches deliver undefined. -/
theorem list_tools_undefined_collection_success_witness :
    (listSavedSearchesTool (some cfgA) envUndefColl).resp = okResp none ∧
    (listIndexesTool (some cfgA) envUndefColl).resp = okResp none :=
  ⟨(list_tools_undefined_collection_success cfgA envUndefColl rfl rfl).2.2.1,
   (list_tools_undefined_collection_success cfgA envUndefColl rfl rfl).2.2.2.2.1⟩

/-- C2: the session state machine of configure. A schema-valid configure
replaces any existing session: successful authentication leaves the new
handle set (Unset/Ready → Authenticating → Ready); failed authentication
leaves the reference cleared (→ Unset), and a subsequent schema-valid
search then fails with the session-state error and no external call. -/
theorem configure_session_state_machine (st : SessionState) (env : Env)
    (raw : ConfigureArgsRaw) (cfg : SplunkConfig)
    (hv : validateConfigureArgs raw = .ok cfg) :
    (env.loginErr cfg = none →
      (configureTool st env raw).state = some cfg ∧
      (configureTool st env raw).resp.isError = false) ∧
    (∀ e, env.loginErr cfg = some e →
      (configureTool st env raw).state = none ∧
      (configureTool st env raw).resp.isError = true ∧
      ∀ raws a, validateSearchArgs raws = .ok a →
        (searchTool (configureTool st env raw).state env raws).resp =
          errResp ("Error executing search: " ++ sessionErrorMsg) ∧
        (searchTool (configureTool st env raw).state env raws).calls = []) := by
  constructor
  · intro hl
    simp [configureTool, hv, hl, okResp]
  · intro e hl
    have hstate : (configureTool st env raw).state = none := by
      simp [configureTool, hv, hl]
    refine ⟨hstate, ?_, ?_⟩
    · simp [configureTool, hv, hl, errResp]
    · intro raws a hva
      rw [hstate]
      exact ⟨by simp [searchTool, hva], by simp [searchTool, hva]⟩

/-- Witness for C2: successful login from the unset state, and failed
login from a ready state. -/
theorem configure_session_state_machine_witness :
    (configureTool none envOk
      { host := "localhost", username := "admin", password := "changeme" }).state =
      some ⟨"localhost", 8089, "admin", "changeme", "https"⟩ ∧
    (configureTool (some cfgA) envAuthFail
      { host := "localhost", username := "admin", password := "changeme" }).state = none :=
  ⟨((configure_session_state_machine none envOk
      { host := "localhost", username := "admin", password := "changeme" }
      ⟨"localhost", 8089, "admin", "changeme", "https"⟩ rfl).1 rfl).1,
   ((configure_session_state_machine (some cfgA) envAuthFail
      { host := "localhost", username := "admin", password := "changeme" }
      ⟨"localhost", 8089, "admin", "changeme", "https"⟩ rfl).2 "Login failed" rfl).1⟩

/-- C5: no operation other than configure modifies the session
reference — even when an external call fails the operation fails
outright with the state unchanged — each operation issues every external
call at most once (no retry, the trace has no duplicates), and configure
clears the session on authentication failure. -/
theorem non_configure_ops_preserve_session (st : SessionState) (env : Env)
    (raws : SearchArgsRaw) (rss : RunSavedSearchArgs) (rc : ConfigureArgsRaw)
    (cfg : SplunkConfig) (e : String)
    (hv : validateConfigureArgs rc = .ok cfg) (hf : env.loginErr cfg = some e) :
    (searchTool st env raws).state = st ∧
    (listSavedSearchesTool st env).state = st ∧
    (listIndexesTool st env).state = st ∧
    (runSavedSearchTool st env rss).state = st ∧
    (searchTool st env raws).calls.Nodup ∧
    (listSavedSearchesTool st env).calls.Nodup ∧
    (listIndexesTool st env).calls.Nodup ∧
    (runSavedSearchTool st env rss).calls.Nodup ∧
    (configureTool st env rc).state = none := by
  have h1 : (searchTool st env raws).state = st ∧ (searchTool st env raws).calls.Nodup := by
    simp only [searchTool]
    repeat' split
    all_goals simp
  have h2 : (listSavedSearchesTool st env).state = st ∧
      (listSavedSearchesTool st env).calls.Nodup := by
    simp only [listSavedSearchesTool]
    repeat' split
    all_goals simp
  have h3 : (listIndexesTool st env).state = st ∧ (listIndexesTool st env).calls.Nodup := by
    simp only [listIndexesTool]
    repeat' split
    all_goals simp
  have h4 : (runSavedSearchTool st env rss).state = st ∧
      (runSavedSearchTool st env rss).calls.Nodup := by
    simp only [runSavedSearchTool]
    repeat' split
    all_goals simp
  exact ⟨h1.1, h2.1, h3.1, h4.1, h1.2, h2.2, h3.2, h4.2, by simp [configureTool, hv, hf]⟩

/-- Witness for C5: a failed search submission leaves a ready session
untouched, while a failed configure clears it. -/
theorem non_configure_ops_preserve_session_witness :
    (searchTool (some cfgA) envBothFail { query := "x" }).state = some cfgA ∧
    (configureTool (some cfgA) envBothFail
      { host := "h", username := "u", password := "p" }).state = none :=
  ⟨(non_configure_ops_preserve_session (some cfgA) envBothFail { query := "x" }
      { name := "alpha" } { host := "h", username := "u", password := "p" }
      ⟨"h", 8089, "u", "p", "https"⟩ "Login failed" rfl rfl).1,
   (non_configure_ops_preserve_session (some cfgA) envBothFail { query := "x" }
      { name := "alpha" } { host := "h", username := "u", password := "p" }
      ⟨"h", 8089, "u", "p", "https"⟩ "Login failed" rfl rfl).2.2.2.2.2.2.2.2⟩

/-- C6: run_saved_search with a name absent from the fetched collection
fails with the not-found error; its trace is the single fetch, so no
dispatch call is performed. -/
theorem run_saved_search_not_found_no_dispatch (cfg : SplunkConfig) (env : Env)
    (a : RunSavedSearchArgs) (l : List SavedSearchEntry)
    (hfetch : env.savedSearchesFetch = .ok (some l))
    (hnot : l.find? (fun s => s.name == a.name) = none) :
    (runSavedSearchTool (some cfg) env a).resp =
      errResp ("Error running saved search: Saved search \x27" ++ a.name ++
        "\x27 not found") ∧
    (runSavedSearchTool (some cfg) env a).calls = [ExtCall.fetchSavedSearches] ∧
    ∀ n opts, ExtCall.dispatchSaved n opts ∉ (runSavedSearchTool (some cfg) env a).calls := by
  refine ⟨?_, ?_, ?_⟩
  · simp [runSavedSearchTool, hfetch, hnot]
  · simp [runSavedSearchTool, hfetch, hnot]
  · intro n opts
    simp [runSavedSearchTool, hfetch, hnot]

/-- Witness for C6 with a name not in the two-element collection. -/
theorem run_saved_search_not_found_no_dispatch_witness :
    (runSavedSearchTool (some cfgA) envOk { name := "gamma" }).calls =
      [ExtCall.fetchSavedSearches] :=
  (run_saved_search_not_found_no_dispatch cfgA envOk { name := "gamma" }
    [ssAlpha, ssBeta] rfl rfl).2.1

/-- C7: list_saved_searches returns exactly one projected record per
fetched saved search in the shape {name, search, description,
earliest_time, latest_time}, preserving name and search text, and
list_indexes one projected record per fetched index in the shape
{name, totalEventCount, currentDBSizeMB, maxDataSize}. -/
theorem list_tools_project_each_fetched_item (cfg : SplunkConfig) (env : Env)
    (l : List SavedSearchEntry) (li : List IndexEntry)
    (hs : env.savedSearchesFetch = .ok (some l))
    (hi : env.indexesFetch = .ok (some li)) :
    getSavedSearches env = .ok (some (l.map projectSavedSearch)) ∧
    (l.map projectSavedSearch).length = l.length ∧
    (∀ s, projectSavedSearch s =
      ⟨s.name, s.search, s.description, s.dispatch_earliest_time, s.dispatch_latest_time⟩) ∧
    (listSavedSearchesTool (some cfg) env).resp =
      okResp (some (serializeSavedSearches (l.map projectSavedSearch))) ∧
    getIndexes env = .ok (some (li.map projectIndex)) ∧
    (li.map projectIndex).length = li.length ∧
    (∀ i, projectIndex i = ⟨i.name, i.totalEventCount, i.currentDBSizeMB, i.maxDataSize⟩) ∧
    (listIndexesTool (some cfg) env).resp =
      okResp (some (serializeIndexes (li.map projectIndex))) := by
  refine ⟨?_, by simp, fun s => rfl, ?_, ?_, by simp, fun i => rfl, ?_⟩ <;>
    simp [getSavedSearches, getIndexes, listSavedSearchesTool, listIndexesTool, hs, hi]

/-- Witness for C7: a mocked system returning two saved searches yields
exactly the two projected records. -/
theorem list_tools_project_each_fetched_item_witness :
    getSavedSearches envOk =
      .ok (some [projectSavedSearch ssAlpha, projectSavedSearch ssBeta]) :=
  (list_tools_project_each_fetched_item cfgA envOk [ssAlpha, ssBeta] [ixMain] rfl rfl).1

/-- C8: the query text submitted to the external system is the input
query prefixed with the default "search " directive exactly when the
input query does not already start with "search"; otherwise it is
submitted unchanged. The submitted params are the first external call. -/
theorem search_query_prefixed_iff_needed (cfg : SplunkConfig) (env : Env)
    (raw : SearchArgsRaw) (a : SearchArgs)
    (hv : validateSearchArgs raw = .ok a) :
    (searchTool (some cfg) env raw).calls.head? =
      some (ExtCall.searchSubmit (buildSearchParams a)) ∧
    (buildSearchParams a).search =
      (if raw.query.startsWith "search" then raw.query else "search " ++ raw.query) := by
  have hq : a.query = raw.query := validateSearchArgs_query raw a hv
  constructor
  · simp only [searchTool, hv]
    repeat' split
    all_goals simp
  · simp [buildSearchParams, hq]

/-- Witness for C8 at a query lacking the directive. -/
theorem search_query_prefixed_iff_needed_witness :
    (searchTool (some cfgA) envOk { query := "error" }).calls.head? =
      some (ExtCall.searchSubmit (buildSearchParams ⟨"error", none, none, 100, "json"⟩)) :=
  (search_query_prefixed_iff_needed cfgA envOk { query := "error" }
    ⟨"error", none, none, 100, "json"⟩ rfl).1

/-- C9: output_mode defaults to "json" when omitted, an explicit value
is kept unchanged by validation, and the validated value is passed
unmodified both into the submitted job parameters and into the result
fetch call. -/
theorem search_output_mode_defaults_and_passthrough (cfg : SplunkConfig) (env : Env)
    (raw : SearchArgsRaw) (a : SearchArgs) (job : Nat)
    (hv : validateSearchArgs raw = .ok a)
    (hjob : env.searchResult (buildSearchParams a) = .ok job)
    (htrack : env.trackErr job = none) :
    (raw.output_mode = none → a.output_mode = "json") ∧
    (∀ m, raw.output_mode = some m → a.output_mode = m) ∧
    (buildSearchParams a).output_mode = a.output_mode ∧
    (searchTool (some cfg) env raw).calls =
      [ExtCall.searchSubmit (buildSearchParams a), ExtCall.jobTrack,
        ExtCall.jobResults a.output_mode] := by
  refine ⟨fun hm => validateSearchArgs_output_mode_none raw a hv hm,
    fun m hm => validateSearchArgs_output_mode_some raw a m hv hm, rfl, ?_⟩
  simp only [searchTool, hv, hjob, htrack]
  cases h : env.resultsOut job a.output_mode <;> simp [h]

/-- Witness for C9: omitted output_mode yields a json submission and a
json result fetch. -/
theorem search_output_mode_defaults_and_passthrough_witness :
    (searchTool (some cfgA) envOk { query := "x" }).calls =
      [ExtCall.searchSubmit (buildSearchParams ⟨"x", none, none, 100, "json"⟩),
        ExtCall.jobTrack, ExtCall.jobResults "json"] :=
  (search_output_mode_defaults_and_passthrough cfgA envOk { query := "x" }
    ⟨"x", none, none, 100, "json"⟩ 1 rfl rfl rfl).2.2.2

/-- C4 counterexample: an external-call failure of the server_info
resource is caught and yields a textual error message, but the response
carries no error indicator — resource responses in the source never set
an isError property — refuting the claim as stated for the resources. -/
theorem server_info_error_lacks_error_flag :
    (serverInfoResource (some cfgA) envInfoFail).1.text =
      "Error getting server info: connection reset" ∧
    (serverInfoResource (some cfgA) envInfoFail).1.isError = false := by
  constructor <;> rfl

/-- C4 (amended): every failure of any of the five tools — validation
error, missing session, or external-call error at any stage — is caught
at the operation boundary and converted into a response carrying a
textual error message with the error indicator set; failures of the
server_info resource are likewise caught and converted into a textual
error message but carry no error indicator; connection_status has no
failure path and issues no external call; no error propagates past the
boundary (each operation is a total function into the response type).
The conjuncts enumerate, per tool, every failure branch of the source
handlers. -/
theorem operation_failures_caught_at_boundary (st : SessionState) (env : Env)
    (raws : SearchArgsRaw) (rc : ConfigureArgsRaw) (rss : RunSavedSearchArgs)
    (cfg : SplunkConfig) (a : SearchArgs) :
    (∀ e, validateSearchArgs raws = .error e →
      isFlaggedError (searchTool st env raws).resp
        ("Invalid arguments for tool search: " ++ e)) ∧
    (validateSearchArgs raws = .ok a →
      isFlaggedError (searchTool none env raws).resp
        ("Error executing search: " ++ sessionErrorMsg)) ∧
    (∀ e, validateSearchArgs raws = .ok a →
      env.searchResult (buildSearchParams a) = .error e →
      isFlaggedError (searchTool (some cfg) env raws).resp
        ("Error executing search: " ++ e)) ∧
    (∀ e job, validateSearchArgs raws = .ok a →
      env.searchResult (buildSearchParams a) = .ok job →
      env.trackErr job = some e →
      isFlaggedError (searchTool (some cfg) env raws).resp
        ("Error executing search: " ++ e)) ∧
    (∀ e job, validateSearchArgs raws = .ok a →
      env.searchResult (buildSearchParams a) = .ok job →
      env.trackErr job = none →
      env.resultsOut job a.output_mode = .error e →
      isFlaggedError (searchTool (some cfg) env raws).resp
        ("Error executing search: " ++ e)) ∧
    (∀ e, validateConfigureArgs rc = .error e →
      isFlaggedError (configureTool st env rc).resp
        ("Invalid arguments for tool configure: " ++ e)) ∧
    (∀ e c, validateConfigureArgs rc = .ok c → env.loginErr c = some e →
      isFlaggedError (configureTool st env rc).resp
        ("Failed to connect to Splunk: " ++ e)) ∧
    isFlaggedError (listSavedSearchesTool none env).resp
      ("Error listing saved searches: " ++ sessionErrorMsg) ∧
    (∀ e, env.savedSearchesFetch = .error e →
      isFlaggedError (listSavedSearchesTool (some cfg) env).resp
        ("Error listing saved searches: " ++ e)) ∧
    isFlaggedError (listIndexesTool none env).resp
      ("Error listing indexes: " ++ sessionErrorMsg) ∧
    (∀ e, env.indexesFetch = .error e →
      isFlaggedError (listIndexesTool (some cfg) env).resp
        ("Error listing indexes: " ++ e)) ∧
    isFlaggedError (runSavedSearchTool none env rss).resp
      ("Error running saved search: " ++ sessionErrorMsg) ∧
    (∀ e, env.savedSearchesFetch = .error e →
      isFlaggedError (runSavedSearchTool (some cfg) env rss).resp
        ("Error running saved search: " ++ e)) ∧
    (∀ coll, env.savedSearchesFetch = .ok coll →
      coll.bind (fun l => l.find? (fun s => s.name == rss.name)) = none →
      isFlaggedError (runSavedSearchTool (some cfg) env rss).resp
        ("Error running saved search: Saved search \x27" ++ rss.name ++
          "\x27 not found")) ∧
    (∀ e coll entry, env.savedSearchesFetch = .ok coll →
      coll.bind (fun l => l.find? (fun s => s.name == rss.name)) = some entry →
      env.dispatchResult rss.name
        ⟨jsTruthyStr rss.earliest_time, jsTruthyStr rss.latest_time⟩ = .error e →
      isFlaggedError (runSavedSearchTool (some cfg) env rss).resp
        ("Error running saved search: " ++ e)) ∧
    (∀ e coll entry job, env.savedSearchesFetch = .ok coll →
      coll.bind (fun l => l.find? (fun s => s.name == rss.name)) = some entry →
      env.dispatchResult rss.name
        ⟨jsTruthyStr rss.earliest_time, jsTruthyStr rss.latest_time⟩ = .ok job →
      env.trackErr job = some e →
      isFlaggedError (runSavedSearchTool (some cfg) env rss).resp
        ("Error running saved search: " ++ e)) ∧
    (∀ e coll entry job, env.savedSearchesFetch = .ok coll →
      coll.bind (fun l => l.find? (fun s => s.name == rss.name)) = some entry →
      env.dispatchResult rss.name
        ⟨jsTruthyStr rss.earliest_time, jsTruthyStr rss.latest_time⟩ = .ok job →
      env.trackErr job = none →
      env.resultsOut job "json" = .error e →
      isFlaggedError (runSavedSearchTool (some cfg) env rss).resp
        ("Error running saved search: " ++ e)) ∧
    (serverInfoResource none env).1.text =
      "Error getting server info: Splunk service not initialized" ∧
    (serverInfoResource none env).1.isError = false ∧
    (∀ e, env.serverInfoResult = .error e →
      (serverInfoResource (some cfg) env).1.text = "Error getting server info: " ++ e ∧
      (serverInfoResource (some cfg) env).1.isError = false) ∧
    (connectionStatusResource st).2 = [] := by
  refine ⟨?_, ?_, ?_, ?_, ?_, ?_, ?_, ?_, ?_, ?_, ?_, ?_, ?_, ?_, ?_, ?_, ?_,
    rfl, rfl, ?_, rfl⟩
  · intro e he
    simp [searchTool, he, isFlaggedError, errResp]
  · intro hv
    simp [searchTool, hv, isFlaggedError, errResp]
  · intro e hv hs
    simp [searchTool, hv, hs, isFlaggedError, errResp]
  · intro e job hv hs ht
    simp [searchTool, hv, hs, ht, isFlaggedError, errResp]
  · intro e job hv hs ht hr
    simp [searchTool, hv, hs, ht, hr, isFlaggedError, errResp]
  · intro e he
    simp [configureTool, he, isFlaggedError, errResp]
  · intro e c hc hl
    simp [configureTool, hc, hl, isFlaggedError, errResp]
  · simp [listSavedSearchesTool, isFlaggedError, errResp]
  · intro e he
    simp [listSavedSearchesTool, getSavedSearches, he, isFlaggedError, errResp]
  · simp [listIndexesTool, isFlaggedError, errResp]
  · intro e he
    simp [listIndexesTool, getIndexes, he, isFlaggedError, errResp]
  · simp [runSavedSearchTool, isFlaggedError, errResp]
  · intro e he
    simp [runSavedSearchTool, he, isFlaggedError, errResp]
  · intro coll hc hn
    simp [runSavedSearchTool, hc, hn, isFlaggedError, errResp]
  · intro e coll entry hc hn hd
    simp [runSavedSearchTool, hc, hn, hd, isFlaggedError, errResp]
  · intro e coll entry job hc hn hd ht
    simp [runSavedSearchTool, hc, hn, hd, ht, isFlaggedError, errResp]
  · intro e coll entry job hc hn hd ht hr
    simp [runSavedSearchTool, hc, hn, hd, ht, hr, isFlaggedError, errResp]
  · intro e he
    constructor <;> simp [serverInfoResource, he]

/-- Witness for C4 (amended): an external-call failure of the search
tool (submission error) yields the flagged textual error response. -/
theorem operation_failures_caught_at_boundary_witness :
    (searchTool (some cfgA) envSearchFail { query := "x" }).resp.isError = true ∧
    (searchTool (some cfgA) envSearchFail { query := "x" }).resp.text =
      some "Error executing search: sid not found" :=
  (operation_failures_caught_at_boundary (some cfgA) envSearchFail { query := "x" }
    { host := "h", username := "u", password := "p" } { name := "alpha" } cfgA
    ⟨"x", none, none, 100, "json"⟩).2.2.1 "sid not found" rfl rfl

end SplunkMCP
